import Mathlib

/-!
Shallow embedding of the sumo-mcp-server control layer.

The repository wraps an external robot-control library (`SumoController`)
behind `SumoWrapper` (src/sumopy_wrapper.py) and exposes the wrapper
operations as tools through `call_tool` (src/server.py).  The external
library owns the socket and the outbound command queue; at this layer a
command frame is fully described by the arguments the wrapper passes to
the static helper `fab_cmd` (acknowledgment mode, channel, project id,
class id, command offset, packed argument bytes), and the library
observable behaviour is modelled by explicit state: the liveness probe,
the queued command frames, the log of movement calls, and the camera
frame fetch result.  Exceptions are modelled with `Except`; a Python
function that catches internally and cannot raise is a total function.
-/

namespace SumoMCP

/-- A command frame as assembled by the external `fab_cmd` helper:
acknowledgment mode, logical channel, project id, class id, command
offset within the class, and the packed argument payload bytes. -/
structure CmdFrame where
  ack : Nat
  channel : Nat
  project : Nat
  classId : Nat
  cmdOffset : Nat
  payload : List Nat
deriving DecidableEq

/-- Embedding of `SumoController.fab_cmd(ack, channel, project, class, cmd, args)`:
at this layer the frame is determined by exactly these six arguments. -/
def fab_cmd (ack channel project classId cmdOffset : Nat) (payload : List Nat) : CmdFrame :=
  { ack := ack, channel := channel, project := project, classId := classId,
    cmdOffset := cmdOffset, payload := payload }

/-- Embedding of Python `struct.pack(chr 60 ++ chr 73, v)` (little-endian
unsigned 32-bit): the four bytes of `v`, least significant first. -/
def packU32LE (v : Nat) : List Nat :=
  [v % 256, v / 256 % 256, v / 65536 % 256, v / 16777216 % 256]

/-- Little-endian unsigned value of a byte list (for reading a payload back). -/
def leVal : List Nat → Nat
  | [] => 0
  | b :: bs => b + 256 * leVal bs

instance {ε α : Type} [DecidableEq ε] [DecidableEq α] : DecidableEq (Except ε α) := fun a b =>
  match a, b with
  | Except.ok x, Except.ok y =>
    if h : x = y then Decidable.isTrue (by rw [h])
    else Decidable.isFalse (fun hh => h (Except.ok.inj hh))
  | Except.error x, Except.error y =>
    if h : x = y then Decidable.isTrue (by rw [h])
    else Decidable.isFalse (fun hh => h (Except.error.inj hh))
  | Except.ok _, Except.error _ => Decidable.isFalse (fun hh => Except.noConfusion hh)
  | Except.error _, Except.ok _ => Decidable.isFalse (fun hh => Except.noConfusion hh)

/-- Observable state of the external `SumoController` collaborator:
`probe` models reading the `connected` attribute (which may itself raise),
`commands` the outbound `_commands` queue, `moves` the log of
`controller.move` calls that reached the transport, `moveFails` whether a
`controller.move` call raises, and `pic` the result of `get_pic`. -/
structure Controller where
  probe : Except Unit Bool
  commands : List CmdFrame
  moves : List (ℚ × ℚ × ℚ)
  moveFails : Bool
  pic : Except Unit (Option (List Nat))
deriving DecidableEq

/-- External `controller.move(speed, turn, duration, block=True)`: either
raises (modelled by `moveFails`) or records the movement command exactly
as given. -/
def Controller.move (c : Controller) (speed turn duration : ℚ) : Except Unit Controller :=
  if c.moveFails then Except.error ()
  else Except.ok { c with moves := c.moves ++ [(speed, turn, duration)] }

/-- External `controller.get_pic(retries=5)`: returns the frame bytes,
`none` when no frame is available yet, or raises. -/
def Controller.get_pic (c : Controller) : Except Unit (Option (List Nat)) :=
  c.pic

/-- State of a `SumoWrapper` instance (src/sumopy_wrapper.py): the target
address and the controller handle (`None` when not connected). -/
structure SumoWrapper where
  sumo_ip : String
  controller : Option Controller
deriving DecidableEq

/-- Embedding of `SumoWrapper.__init__` / `_connect`: the external
`SumoController(...)` construction attempt either yields a controller or
raises (`InitTimeoutException` or any other exception); both except
branches set `controller = None` and return normally. -/
def mkSumoWrapper (ip : String) (attempt : Except Unit Controller) : SumoWrapper :=
  { sumo_ip := ip,
    controller := match attempt with
      | Except.ok c => some c
      | Except.error _ => none }

/-- Embedding of `SumoWrapper.is_connected`: `False` when no controller,
otherwise the `connected` attribute, with any probe failure treated as
not connected. -/
def SumoWrapper.is_connected (w : SumoWrapper) : Bool :=
  match w.controller with
  | none => false
  | some c =>
    match c.probe with
    | Except.ok b => b
    | Except.error _ => false

def notConnectedErr : String := "Robot not connected"
def speedErr : String := "Speed must be between -100 and 100"
def turnErr : String := "Turn must be between -100 and 100"
def durationErr : String := "Duration must be at least 0.025 seconds"
def jumpTypeErr : String := "Jump type must be long or high"
def postureErr : String := "Posture type must be one of: standing, jumper, kicker"
def animationErr : String :=
  "Animation must be one of: stop, spin, tap, slowshake, metronome, ondulation, spinjump, spintoposture, spiral, slalom"

/-- The duration lower bound 0.025 seconds, as the reduced rational 1/40
(given in explicit normal form so that it evaluates by kernel reduction). -/
def durationMin : ℚ := ⟨1, 40, by norm_num, by norm_num⟩

/-- The best-effort stop duration 0.1 seconds, as the reduced rational 1/10. -/
def stopDuration : ℚ := ⟨1, 10, by norm_num, by norm_num⟩

/-- Result of `SumoWrapper.move`: normal return, a `ValueError` raised by
the wrapper itself, or an exception propagated from the transport. -/
inductive MoveResult where
  | ok (w : SumoWrapper)
  | valueError (msg : String)
  | transportError
deriving DecidableEq

/-- Embedding of `SumoWrapper.move`: connection check, then range checks
on speed, turn and duration in source order, then the forwarded
`controller.move` call with the arguments unchanged. -/
def SumoWrapper.move (w : SumoWrapper) (speed turn duration : ℚ) : MoveResult :=
  if w.is_connected = false then MoveResult.valueError notConnectedErr
  else if ¬ (-100 ≤ speed ∧ speed ≤ 100) then MoveResult.valueError speedErr
  else if ¬ (-100 ≤ turn ∧ turn ≤ 100) then MoveResult.valueError turnErr
  else if duration < durationMin then MoveResult.valueError durationErr
  else
    match w.controller with
    | none => MoveResult.valueError notConnectedErr
    | some c =>
      match c.move speed turn duration with
      | Except.ok c2 => MoveResult.ok { w with controller := some c2 }
      | Except.error _ => MoveResult.transportError

/-- Embedding of `self.controller._commands.append(cmd)`. -/
def SumoWrapper.appendCmd (w : SumoWrapper) (cmd : CmdFrame) : SumoWrapper :=
  { w with controller := w.controller.map (fun c => { c with commands := c.commands ++ [cmd] }) }

/-- Embedding of `SumoWrapper.jump`: connection check, jump-type check,
then one frame `fab_cmd(4, 11, 3, 2, 3, pack_u32_le(enum))` with enum 0
for long and 1 for high, appended to the command queue. -/
def SumoWrapper.jump (w : SumoWrapper) (jump_type : String) : Except String SumoWrapper :=
  if w.is_connected = false then Except.error notConnectedErr
  else if jump_type ≠ "long" ∧ jump_type ≠ "high" then Except.error jumpTypeErr
  else
    Except.ok (w.appendCmd (fab_cmd 4 11 3 2 3 (packU32LE (if jump_type = "long" then 0 else 1))))

/-- Embedding of `SumoWrapper.load_jump`: one frame with command offset 2
and an empty payload. -/
def SumoWrapper.load_jump (w : SumoWrapper) : Except String SumoWrapper :=
  if w.is_connected = false then Except.error notConnectedErr
  else Except.ok (w.appendCmd (fab_cmd 4 11 3 2 2 []))

/-- Embedding of `SumoWrapper.cancel_jump`: one frame with command offset 1. -/
def SumoWrapper.cancel_jump (w : SumoWrapper) : Except String SumoWrapper :=
  if w.is_connected = false then Except.error notConnectedErr
  else Except.ok (w.appendCmd (fab_cmd 4 11 3 2 1 []))

/-- Embedding of `SumoWrapper.stop_jump`: one frame with command offset 0. -/
def SumoWrapper.stop_jump (w : SumoWrapper) : Except String SumoWrapper :=
  if w.is_connected = false then Except.error notConnectedErr
  else Except.ok (w.appendCmd (fab_cmd 4 11 3 2 0 []))

/-- The posture name-to-enum table of `SumoWrapper.change_posture`, in
source order. -/
def posture_types : List (String × Nat) :=
  [("standing", 0), ("jumper", 1), ("kicker", 2)]

/-- Embedding of `SumoWrapper.change_posture`: connection check, posture
lookup, then one frame `fab_cmd(4, 10, 3, 0, 1, pack_u32_le(enum))` on the
piloting channel. -/
def SumoWrapper.change_posture (w : SumoWrapper) (posture_type : String) : Except String SumoWrapper :=
  if w.is_connected = false then Except.error notConnectedErr
  else
    match posture_types.lookup posture_type with
    | none => Except.error postureErr
    | some v => Except.ok (w.appendCmd (fab_cmd 4 10 3 0 1 (packU32LE v)))

/-- The animation name-to-enum table of `SumoWrapper.play_animation`, in
source order. -/
def animations : List (String × Nat) :=
  [("stop", 0), ("spin", 1), ("tap", 2), ("slowshake", 3), ("metronome", 4),
   ("ondulation", 5), ("spinjump", 6), ("spintoposture", 7), ("spiral", 8), ("slalom", 9)]

/-- Embedding of `SumoWrapper.play_animation`: connection check, name
lookup, then one frame `fab_cmd(4, 11, 3, 2, 4, pack_u32_le(enum))`. -/
def SumoWrapper.play_animation (w : SumoWrapper) (animation_name : String) : Except String SumoWrapper :=
  if w.is_connected = false then Except.error notConnectedErr
  else
    match animations.lookup animation_name with
    | none => Except.error animationErr
    | some v => Except.ok (w.appendCmd (fab_cmd 4 11 3 2 4 (packU32LE v)))

/-- Embedding of `SumoWrapper.get_camera_frame`: connection check, then
`get_pic` with every exception converted to the no-frame result `none`. -/
def SumoWrapper.get_camera_frame (w : SumoWrapper) : Except String (Option (List Nat)) :=
  if w.is_connected = false then Except.error notConnectedErr
  else
    match w.controller with
    | none => Except.error notConnectedErr
    | some c =>
      match c.get_pic with
      | Except.ok f => Except.ok f
      | Except.error _ => Except.ok none

/-- Embedding of `SumoWrapper.disconnect`: when a controller exists, the
best-effort stop command `controller.move(0, 0, 0.1, block=True)` is
attempted with any exception swallowed, then the controller is released;
with no controller the call does nothing.  Total: it never raises. -/
def SumoWrapper.disconnect (w : SumoWrapper) : SumoWrapper :=
  match w.controller with
  | none => w
  | some c =>
    match c.move 0 0 stopDuration with
    | Except.ok _ => { w with controller := none }
    | Except.error _ => { w with controller := none }

/-- One content item of a tool response (src/server.py returns a list of
TextContent and ImageContent values). -/
inductive Content where
  | text (s : String)
  | image (dataBytes : List Nat)
deriving DecidableEq

def connectOkText (ip : String) : String :=
  "Successfully connected to Sumo robot at " ++ ip
def connectFailText (ip : String) : String :=
  "Failed to connect to Sumo robot at " ++ ip
def noActiveText : String := "No robot connection active."
def disconnectedText : String := "Successfully disconnected from robot."
def notConnectedText : String :=
  "Error: Not connected to robot. Please use connect_robot first to establish a connection."
def connLostText : String :=
  "Error: Robot connection lost. Please reconnect using connect_robot."
def noFrameText : String :=
  "No camera frame available yet. The video stream may still be initializing. Please try again in a moment."
def frameText : String := "Camera frame captured and saved."
def toolErrorText (msg : String) : String := "Error executing tool: " ++ msg

/-- Number of live connections held through the global `robot` variable:
one when the referenced wrapper still holds a controller, zero otherwise. -/
def liveConns (st : Option SumoWrapper) : Nat :=
  match st with
  | none => 0
  | some w => match w.controller with
    | some _ => 1
    | none => 0

/-- The successive values relevant to connection liveness during the
`connect_robot` branch of `call_tool` (src/server.py lines 188 to 196), in
statement order: the state on entry, the state after `robot.disconnect()`
on the prior wrapper (skipped when `robot is None`), and the state after
`robot = SumoWrapper(sumo_ip)`. -/
def handleConnectSteps (st : Option SumoWrapper) (ip : String)
    (attempt : Except Unit Controller) : List (Option SumoWrapper) :=
  match st with
  | some w => [some w, some w.disconnect, some (mkSumoWrapper ip attempt)]
  | none => [none, some (mkSumoWrapper ip attempt)]

/-- The `connect_robot` branch of `call_tool`: disconnect any prior
wrapper, build the new one (the external construction attempt is a
parameter), then report success or failure from `is_connected`. -/
def handleConnect (st : Option SumoWrapper) (ip : String)
    (attempt : Except Unit Controller) : Option SumoWrapper × List Content :=
  let _prior : Option SumoWrapper :=
    match st with
    | some w => some w.disconnect
    | none => none
  let w := mkSumoWrapper ip attempt
  (some w,
   [Content.text (if w.is_connected then connectOkText ip else connectFailText ip)])

/-- The `disconnect_robot` branch of `call_tool`: with no wrapper it only
reports that nothing is active; otherwise it disconnects the wrapper and
clears the global. -/
def handleDisconnect (st : Option SumoWrapper) : Option SumoWrapper × List Content :=
  match st with
  | none => (none, [Content.text noActiveText])
  | some w =>
    let _released := w.disconnect
    (none, [Content.text disconnectedText])

/-- The `get_camera_frame` branch of `call_tool`, including the shared
connection guards that precede it: no wrapper yields the not-connected
error text, a wrapper that is not live yields the connection-lost error
text, otherwise the frame fetch of the wrapper is rendered (a `ValueError`
escaping the wrapper would be caught by the outer handler and rendered as
an error text). -/
def handleGetCameraFrame (st : Option SumoWrapper) : List Content :=
  match st with
  | none => [Content.text notConnectedText]
  | some w =>
    if w.is_connected = false then [Content.text connLostText]
    else
      match w.get_camera_frame with
      | Except.error e => [Content.text (toolErrorText e)]
      | Except.ok none => [Content.text noFrameText]
      | Except.ok (some bs) => [Content.text frameText, Content.image bs]

/-- A controller in the healthy connected state with empty logs. -/
def testController : Controller :=
  { probe := Except.ok true, commands := [], moves := [], moveFails := false,
    pic := Except.ok none }

/-- A controller whose transport raises on `move` and on `get_pic`. -/
def failingController : Controller :=
  { probe := Except.ok true, commands := [], moves := [], moveFails := true,
    pic := Except.error () }

/-- A wrapper connected through `testController`. -/
def testW : SumoWrapper :=
  { sumo_ip := "192.168.2.1", controller := some testController }

/-- A wrapper that holds no controller (failed or torn-down connection). -/
def testWNone : SumoWrapper :=
  { sumo_ip := "192.168.2.1", controller := none }

/-- A wrapper connected through `failingController`. -/
def testWFail : SumoWrapper :=
  { sumo_ip := "192.168.2.1", controller := some failingController }

/-- Every reachable global state references at most one live connection. -/
theorem liveConns_le_one (st : Option SumoWrapper) : liveConns st ≤ 1 := by
  cases st with
  | none => exact Nat.zero_le 1
  | some w =>
    cases hc : w.controller <;> simp [liveConns, hc]

/-- A connected wrapper state (controller present, probe reports live)
makes `is_connected` return `true`. -/
theorem is_connected_of_probe (w : SumoWrapper) (c : Controller)
    (hsome : w.controller = some c) (hprobe : c.probe = Except.ok true) :
    w.is_connected = true := by
  simp [SumoWrapper.is_connected, hsome, hprobe]

/-- C1 counterexample: in a connected session, `jump("long")` enqueues the
frame `fab_cmd(4, 11, 3, 2, 3, pack(0))` whose argument payload has length
4 (one little-endian u32), not 6 as the claim states. -/
theorem C1_jump_payload_counterexample :
    testW.jump "long" = Except.ok { testW with controller := some { testController with commands := [fab_cmd 4 11 3 2 3 (packU32LE 0)] } } ∧
    (fab_cmd 4 11 3 2 3 (packU32LE 0)).payload.length = 4 ∧
    ¬ (fab_cmd 4 11 3 2 3 (packU32LE 0)).payload.length = 6 := by
  refine ⟨by decide, by decide, by decide⟩

/-- C1 (amended): for every connected session, `jump(kind)` with kind long
or high encodes and enqueues exactly one frame with acknowledgment mode 4,
command channel 11, project id 3, class id 2, command offset 3, and a
4-byte little-endian u32 payload whose value is 0 for long and 1 for
high; any other kind string is rejected with a validation failure and no
frame is enqueued. -/
theorem C1_jump_frame (w : SumoWrapper) (c : Controller)
    (hsome : w.controller = some c) (hprobe : c.probe = Except.ok true) :
    w.jump "long" = Except.ok { w with controller := some { c with commands := c.commands ++ [fab_cmd 4 11 3 2 3 (packU32LE 0)] } } ∧
    w.jump "high" = Except.ok { w with controller := some { c with commands := c.commands ++ [fab_cmd 4 11 3 2 3 (packU32LE 1)] } } ∧
    (fab_cmd 4 11 3 2 3 (packU32LE 0)).payload.length = 4 ∧
    leVal (packU32LE 0) = 0 ∧ leVal (packU32LE 1) = 1 ∧
    (∀ k : String, k ≠ "long" → k ≠ "high" → w.jump k = Except.error jumpTypeErr) := by
  have hconn := is_connected_of_probe w c hsome hprobe
  refine ⟨?_, ?_, by decide, by decide, by decide, ?_⟩
  · simp [SumoWrapper.jump, hconn, SumoWrapper.appendCmd, hsome]
  · simp [SumoWrapper.jump, hconn, SumoWrapper.appendCmd, hsome]
  · intro k hk1 hk2
    simp [SumoWrapper.jump, hconn, hk1, hk2]

/-- C1 witness: the amended statement evaluated in a concrete connected
session, for a high jump and for a rejected kind. -/
theorem C1_jump_frame_witness :
    testW.jump "high" = Except.ok { testW with controller := some { testController with commands := [fab_cmd 4 11 3 2 3 (packU32LE 1)] } } ∧
    testW.jump "hop" = Except.error jumpTypeErr := by
  have h := C1_jump_frame testW testController rfl rfl
  exact ⟨h.2.1, h.2.2.2.2.2 "hop" (by decide) (by decide)⟩

/-- C2: for a connected session, `move` forwards in-range arguments to the
transport unchanged (appending exactly one movement record), propagates a
transport failure distinctly, and rejects out-of-range speed, turn, or
duration with the corresponding validation error before anything is sent. -/
theorem C2_move_validation (w : SumoWrapper) (c : Controller) (s t d : ℚ)
    (hsome : w.controller = some c) (hprobe : c.probe = Except.ok true) :
    ((-100 ≤ s ∧ s ≤ 100) → (-100 ≤ t ∧ t ≤ 100) → durationMin ≤ d → c.moveFails = false →
      w.move s t d = MoveResult.ok { w with controller := some { c with moves := c.moves ++ [(s, t, d)] } }) ∧
    ((-100 ≤ s ∧ s ≤ 100) → (-100 ≤ t ∧ t ≤ 100) → durationMin ≤ d → c.moveFails = true →
      w.move s t d = MoveResult.transportError) ∧
    (¬ (-100 ≤ s ∧ s ≤ 100) → w.move s t d = MoveResult.valueError speedErr) ∧
    ((-100 ≤ s ∧ s ≤ 100) → ¬ (-100 ≤ t ∧ t ≤ 100) →
      w.move s t d = MoveResult.valueError turnErr) ∧
    ((-100 ≤ s ∧ s ≤ 100) → (-100 ≤ t ∧ t ≤ 100) → d < durationMin →
      w.move s t d = MoveResult.valueError durationErr) := by
  have hconn := is_connected_of_probe w c hsome hprobe
  refine ⟨?_, ?_, ?_, ?_, ?_⟩
  · intro hs ht hd hfail
    simp [SumoWrapper.move, hconn, hs.1, hs.2, ht.1, ht.2, hsome, Controller.move, hfail,
      not_lt.mpr hd]
  · intro hs ht hd hfail
    simp [SumoWrapper.move, hconn, hs.1, hs.2, ht.1, ht.2, hsome, Controller.move, hfail,
      not_lt.mpr hd]
  · intro hns
    simp [SumoWrapper.move, hconn, hns]
  · intro hs hnt
    simp [SumoWrapper.move, hconn, hs.1, hs.2, hnt]
  · intro hs ht hd
    simp [SumoWrapper.move, hconn, hs.1, hs.2, ht.1, ht.2, hd]

/-- C2 witness: the statement evaluated in a concrete connected session at
an accepted movement and at out-of-range speed, turn, and duration. -/
theorem C2_move_validation_witness :
    testW.move 30 0 1 = MoveResult.ok { testW with controller := some { testController with moves := [(30, 0, 1)] } } ∧
    testW.move 101 0 1 = MoveResult.valueError speedErr ∧
    testW.move 0 (-101) 1 = MoveResult.valueError turnErr ∧
    testW.move 0 0 0 = MoveResult.valueError durationErr := by
  refine ⟨?_, ?_, ?_, ?_⟩
  · exact (C2_move_validation testW testController 30 0 1 rfl rfl).1
      (by decide) (by decide) (by decide) rfl
  · exact (C2_move_validation testW testController 101 0 1 rfl rfl).2.2.1 (by decide)
  · exact (C2_move_validation testW testController 0 (-101) 1 rfl rfl).2.2.2.1
      (by decide) (by decide)
  · exact (C2_move_validation testW testController 0 0 0 rfl rfl).2.2.2.2
      (by decide) (by decide) (by decide)

/-- C3: for a connected session, `play_animation` encodes each of the ten
declared names as one frame `fab_cmd(4, 11, 3, 2, 4, pack(enum))` with
enum values 0 through 9 in declared table order, and rejects any other
name with a validation failure. -/
theorem C3_play_animation_enum (w : SumoWrapper) (c : Controller)
    (hsome : w.controller = some c) (hprobe : c.probe = Except.ok true) :
    w.play_animation "stop" = Except.ok { w with controller := some { c with commands := c.commands ++ [fab_cmd 4 11 3 2 4 (packU32LE 0)] } } ∧
    w.play_animation "spin" = Except.ok { w with controller := some { c with commands := c.commands ++ [fab_cmd 4 11 3 2 4 (packU32LE 1)] } } ∧
    w.play_animation "tap" = Except.ok { w with controller := some { c with commands := c.commands ++ [fab_cmd 4 11 3 2 4 (packU32LE 2)] } } ∧
    w.play_animation "slowshake" = Except.ok { w with controller := some { c with commands := c.commands ++ [fab_cmd 4 11 3 2 4 (packU32LE 3)] } } ∧
    w.play_animation "metronome" = Except.ok { w with controller := some { c with commands := c.commands ++ [fab_cmd 4 11 3 2 4 (packU32LE 4)] } } ∧
    w.play_animation "ondulation" = Except.ok { w with controller := some { c with commands := c.commands ++ [fab_cmd 4 11 3 2 4 (packU32LE 5)] } } ∧
    w.play_animation "spinjump" = Except.ok { w with controller := some { c with commands := c.commands ++ [fab_cmd 4 11 3 2 4 (packU32LE 6)] } } ∧
    w.play_animation "spintoposture" = Except.ok { w with controller := some { c with commands := c.commands ++ [fab_cmd 4 11 3 2 4 (packU32LE 7)] } } ∧
    w.play_animation "spiral" = Except.ok { w with controller := some { c with commands := c.commands ++ [fab_cmd 4 11 3 2 4 (packU32LE 8)] } } ∧
    w.play_animation "slalom" = Except.ok { w with controller := some { c with commands := c.commands ++ [fab_cmd 4 11 3 2 4 (packU32LE 9)] } } ∧
    (∀ nm : String, nm ≠ "stop" → nm ≠ "spin" → nm ≠ "tap" → nm ≠ "slowshake" →
      nm ≠ "metronome" → nm ≠ "ondulation" → nm ≠ "spinjump" → nm ≠ "spintoposture" →
      nm ≠ "spiral" → nm ≠ "slalom" →
      w.play_animation nm = Except.error animationErr) := by
  have hconn := is_connected_of_probe w c hsome hprobe
  refine ⟨?_, ?_, ?_, ?_, ?_, ?_, ?_, ?_, ?_, ?_, ?_⟩
  case _ => simp [SumoWrapper.play_animation, hconn, SumoWrapper.appendCmd, hsome,
    show animations.lookup "stop" = some 0 by decide]
  case _ => simp [SumoWrapper.play_animation, hconn, SumoWrapper.appendCmd, hsome,
    show animations.lookup "spin" = some 1 by decide]
  case _ => simp [SumoWrapper.play_animation, hconn, SumoWrapper.appendCmd, hsome,
    show animations.lookup "tap" = some 2 by decide]
  case _ => simp [SumoWrapper.play_animation, hconn, SumoWrapper.appendCmd, hsome,
    show animations.lookup "slowshake" = some 3 by decide]
  case _ => simp [SumoWrapper.play_animation, hconn, SumoWrapper.appendCmd, hsome,
    show animations.lookup "metronome" = some 4 by decide]
  case _ => simp [SumoWrapper.play_animation, hconn, SumoWrapper.appendCmd, hsome,
    show animations.lookup "ondulation" = some 5 by decide]
  case _ => simp [SumoWrapper.play_animation, hconn, SumoWrapper.appendCmd, hsome,
    show animations.lookup "spinjump" = some 6 by decide]
  case _ => simp [SumoWrapper.play_animation, hconn, SumoWrapper.appendCmd, hsome,
    show animations.lookup "spintoposture" = some 7 by decide]
  case _ => simp [SumoWrapper.play_animation, hconn, SumoWrapper.appendCmd, hsome,
    show animations.lookup "spiral" = some 8 by decide]
  case _ => simp [SumoWrapper.play_animation, hconn, SumoWrapper.appendCmd, hsome,
    show animations.lookup "slalom" = some 9 by decide]
  case _ =>
    intro nm h1 h2 h3 h4 h5 h6 h7 h8 h9 h10
    simp [SumoWrapper.play_animation, hconn, animations, List.lookup,
      beq_eq_false_iff_ne.mpr h1, beq_eq_false_iff_ne.mpr h2, beq_eq_false_iff_ne.mpr h3,
      beq_eq_false_iff_ne.mpr h4, beq_eq_false_iff_ne.mpr h5, beq_eq_false_iff_ne.mpr h6,
      beq_eq_false_iff_ne.mpr h7, beq_eq_false_iff_ne.mpr h8, beq_eq_false_iff_ne.mpr h9,
      beq_eq_false_iff_ne.mpr h10]

/-- C3 witness: the statement evaluated in a concrete connected session at
the first and last declared animation names and at an undeclared one. -/
theorem C3_play_animation_enum_witness :
    testW.play_animation "stop" = Except.ok { testW with controller := some { testController with commands := [fab_cmd 4 11 3 2 4 (packU32LE 0)] } } ∧
    testW.play_animation "slalom" = Except.ok { testW with controller := some { testController with commands := [fab_cmd 4 11 3 2 4 (packU32LE 9)] } } ∧
    testW.play_animation "dance" = Except.error animationErr := by
  have h := C3_play_animation_enum testW testController rfl rfl
  refine ⟨h.1, h.2.2.2.2.2.2.2.2.2.1, ?_⟩
  exact h.2.2.2.2.2.2.2.2.2.2 "dance" (by decide) (by decide) (by decide) (by decide)
    (by decide) (by decide) (by decide) (by decide) (by decide) (by decide)

/-- C4: for a connected session, `change_posture` encodes standing, jumper
and kicker as one frame `fab_cmd(4, 10, 3, 0, 1, pack(enum))` on the
piloting channel with enum values 0, 1, 2, and rejects any other kind with
a validation failure. -/
theorem C4_change_posture_enum (w : SumoWrapper) (c : Controller)
    (hsome : w.controller = some c) (hprobe : c.probe = Except.ok true) :
    w.change_posture "standing" = Except.ok { w with controller := some { c with commands := c.commands ++ [fab_cmd 4 10 3 0 1 (packU32LE 0)] } } ∧
    w.change_posture "jumper" = Except.ok { w with controller := some { c with commands := c.commands ++ [fab_cmd 4 10 3 0 1 (packU32LE 1)] } } ∧
    w.change_posture "kicker" = Except.ok { w with controller := some { c with commands := c.commands ++ [fab_cmd 4 10 3 0 1 (packU32LE 2)] } } ∧
    (∀ nm : String, nm ≠ "standing" → nm ≠ "jumper" → nm ≠ "kicker" →
      w.change_posture nm = Except.error postureErr) := by
  have hconn := is_connected_of_probe w c hsome hprobe
  refine ⟨?_, ?_, ?_, ?_⟩
  case _ => simp [SumoWrapper.change_posture, hconn, SumoWrapper.appendCmd, hsome,
    show posture_types.lookup "standing" = some 0 by decide]
  case _ => simp [SumoWrapper.change_posture, hconn, SumoWrapper.appendCmd, hsome,
    show posture_types.lookup "jumper" = some 1 by decide]
  case _ => simp [SumoWrapper.change_posture, hconn, SumoWrapper.appendCmd, hsome,
    show posture_types.lookup "kicker" = some 2 by decide]
  case _ =>
    intro nm h1 h2 h3
    simp [SumoWrapper.change_posture, hconn, posture_types, List.lookup,
      beq_eq_false_iff_ne.mpr h1, beq_eq_false_iff_ne.mpr h2, beq_eq_false_iff_ne.mpr h3]

/-- C4 witness: the statement evaluated in a concrete connected session at
each declared posture and at an undeclared one. -/
theorem C4_change_posture_enum_witness :
    testW.change_posture "kicker" = Except.ok { testW with controller := some { testController with commands := [fab_cmd 4 10 3 0 1 (packU32LE 2)] } } ∧
    testW.change_posture "sitting" = Except.error postureErr := by
  have h := C4_change_posture_enum testW testController rfl rfl
  exact ⟨h.2.2.1, h.2.2.2 "sitting" (by decide) (by decide) (by decide)⟩

/-- C5: the `connect_robot` handler keeps at most one live connection at
every intermediate point: starting from a state with an active prior
wrapper, the statement-ordered intermediate states are exactly entry,
after tearing down the prior wrapper, and after building the new one; the
torn-down middle state holds zero live connections, every intermediate
state holds at most one, and the final global state references only the
newly built wrapper. -/
theorem C5_single_connection (w : SumoWrapper) (ip : String) (attempt : Except Unit Controller) :
    handleConnectSteps (some w) ip attempt =
      [some w, some w.disconnect, some (mkSumoWrapper ip attempt)] ∧
    liveConns (some w.disconnect) = 0 ∧
    (∀ s ∈ handleConnectSteps (some w) ip attempt, liveConns s ≤ 1) ∧
    (handleConnect (some w) ip attempt).1 = some (mkSumoWrapper ip attempt) := by
  refine ⟨rfl, ?_, ?_, rfl⟩
  · obtain ⟨wip, ctl⟩ := w
    cases ctl with
    | none => rfl
    | some c =>
      cases hm : Controller.move c 0 0 stopDuration <;>
        simp [SumoWrapper.disconnect, hm, liveConns]
  · intro s _
    exact liveConns_le_one s

/-- C5 witness: the statement evaluated at a concrete connected prior
wrapper and a failing connection attempt. -/
theorem C5_single_connection_witness :
    liveConns (some testW.disconnect) = 0 ∧
    (handleConnect (some testW) "192.168.2.1" (Except.error ())).1 =
      some (mkSumoWrapper "192.168.2.1" (Except.error ())) := by
  have h := C5_single_connection testW "192.168.2.1" (Except.error ())
  exact ⟨h.2.1, h.2.2.2⟩

/-- C6: `disconnect` is idempotent: on a wrapper with no controller it
returns the state unchanged (and, being total, cannot error), a second
disconnect after any disconnect changes nothing, and the adapter
`disconnect_robot` branch with no global wrapper leaves the state empty
and answers with the nothing-active notice. -/
theorem C6_disconnect_idempotent :
    (∀ w : SumoWrapper, w.controller = none → w.disconnect = w) ∧
    (∀ w : SumoWrapper, w.disconnect.disconnect = w.disconnect) ∧
    handleDisconnect none = (none, [Content.text noActiveText]) := by
  refine ⟨?_, ?_, rfl⟩
  · intro w h
    obtain ⟨ip, ctl⟩ := w
    simp only at h
    subst h
    rfl
  · intro w
    obtain ⟨ip, ctl⟩ := w
    cases ctl with
    | none => rfl
    | some c =>
      cases hm : Controller.move c 0 0 stopDuration <;>
        simp [SumoWrapper.disconnect, hm]

/-- C6 witness: disconnect evaluated on a concrete wrapper that holds no
controller. -/
theorem C6_disconnect_idempotent_witness :
    testWNone.disconnect = testWNone := by
  exact C6_disconnect_idempotent.1 testWNone rfl

/-- C7: with an active controller, `disconnect` releases it and returns
normally; in particular, when the best-effort stop command fails (the
transport raises), the failure is swallowed and the controller is still
released. -/
theorem C7_disconnect_swallows_stop_failure (w : SumoWrapper) (c : Controller)
    (hsome : w.controller = some c) :
    w.disconnect = { w with controller := none } ∧
    (c.moveFails = true → Controller.move c 0 0 stopDuration = Except.error ()) := by
  obtain ⟨ip, ctl⟩ := w
  simp only at hsome
  subst hsome
  refine ⟨?_, ?_⟩
  · cases hm : Controller.move c 0 0 stopDuration <;>
      simp [SumoWrapper.disconnect, hm]
  · intro hf
    simp [Controller.move, hf]

/-- C7 witness: disconnect evaluated on a concrete wrapper whose
controller raises on the best-effort stop command. -/
theorem C7_disconnect_swallows_stop_failure_witness :
    testWFail.disconnect = { testWFail with controller := none } ∧
    Controller.move failingController 0 0 stopDuration = Except.error () := by
  have h := C7_disconnect_swallows_stop_failure testWFail failingController rfl
  exact ⟨h.1, h.2 rfl⟩

/-- C8: a connect attempt that times out or fails in transport leaves the
wrapper with no controller and reporting not connected, and the adapter
returns the descriptive failure text instead of raising. -/
theorem C8_connect_failure_no_session (st : Option SumoWrapper) (ip : String) :
    (mkSumoWrapper ip (Except.error ())).controller = none ∧
    (mkSumoWrapper ip (Except.error ())).is_connected = false ∧
    handleConnect st ip (Except.error ()) =
      (some (mkSumoWrapper ip (Except.error ())), [Content.text (connectFailText ip)]) := by
  refine ⟨rfl, rfl, ?_⟩
  simp [handleConnect, mkSumoWrapper, SumoWrapper.is_connected]

/-- C9: before any successful connect, `get_camera_frame` answers with the
not-connected error text (the never-connected wording when no
wrapper exists, the connection-lost wording when a wrapper exists without
a controller), and in neither case does the response carry an image. -/
theorem C9_camera_requires_connection :
    handleGetCameraFrame none = [Content.text notConnectedText] ∧
    (∀ w : SumoWrapper, w.controller = none →
      handleGetCameraFrame (some w) = [Content.text connLostText]) ∧
    (∀ bs : List Nat, Content.image bs ∉ handleGetCameraFrame none) ∧
    (∀ w : SumoWrapper, w.controller = none →
      ∀ bs : List Nat, Content.image bs ∉ handleGetCameraFrame (some w)) := by
  have hlost : ∀ w : SumoWrapper, w.controller = none →
      handleGetCameraFrame (some w) = [Content.text connLostText] := by
    intro w h
    obtain ⟨ip, ctl⟩ := w
    simp only at h
    subst h
    rfl
  refine ⟨rfl, hlost, ?_, ?_⟩
  · intro bs
    simp [handleGetCameraFrame]
  · intro w h bs
    rw [hlost w h]
    simp

/-- C9 witness: the camera branch evaluated at the empty global state and
at a concrete wrapper whose connect attempt had failed. -/
theorem C9_camera_requires_connection_witness :
    handleGetCameraFrame (some testWNone) = [Content.text connLostText] := by
  exact C9_camera_requires_connection.2.1 testWNone rfl

/-- C10: in a connected session, an exception during camera retrieval is
converted into the no-frame result, so the wrapper returns the same value
and the adapter renders the same no-frame notice as in the transient
frame-not-yet-available state; the two are indistinguishable. -/
theorem C10_camera_error_as_no_frame (ip : String) (c : Controller)
    (hprobe : c.probe = Except.ok true) :
    (SumoWrapper.mk ip (some { c with pic := Except.error () })).get_camera_frame =
      Except.ok none ∧
    handleGetCameraFrame (some (SumoWrapper.mk ip (some { c with pic := Except.error () }))) =
      [Content.text noFrameText] ∧
    handleGetCameraFrame (some (SumoWrapper.mk ip (some { c with pic := Except.error () }))) =
      handleGetCameraFrame (some (SumoWrapper.mk ip (some { c with pic := Except.ok none }))) := by
  have hconn1 : (SumoWrapper.mk ip (some { c with pic := Except.error () })).is_connected = true := by
    simp [SumoWrapper.is_connected, hprobe]
  have hconn2 : (SumoWrapper.mk ip (some { c with pic := Except.ok none })).is_connected = true := by
    simp [SumoWrapper.is_connected, hprobe]
  have hget : (SumoWrapper.mk ip (some { c with pic := Except.error () })).get_camera_frame =
      Except.ok none := by
    simp [SumoWrapper.get_camera_frame, hconn1, Controller.get_pic]
  have hget2 : (SumoWrapper.mk ip (some { c with pic := Except.ok none })).get_camera_frame =
      Except.ok none := by
    simp [SumoWrapper.get_camera_frame, hconn2, Controller.get_pic]
  refine ⟨hget, ?_, ?_⟩
  · simp [handleGetCameraFrame, hconn1, hget]
  · simp [handleGetCameraFrame, hconn1, hconn2, hget, hget2]

/-- C10 witness: the statement evaluated at a concrete controller whose
frame retrieval raises. -/
theorem C10_camera_error_as_no_frame_witness :
    (SumoWrapper.mk "192.168.2.1" (some { testController with
      pic := Except.error () })).get_camera_frame = Except.ok none ∧
    handleGetCameraFrame (some (SumoWrapper.mk "192.168.2.1" (some { testController with
      pic := Except.error () }))) = [Content.text noFrameText] := by
  have h := C10_camera_error_as_no_frame "192.168.2.1" testController rfl
  exact ⟨h.1, h.2.1⟩

end SumoMCP
